import Mathlib

/-!
Shallow embedding of the `daikin_br` Home Assistant custom integration
(`custom_components/daikin_br/climate.py` and `coordinator.py`).

The entity's mirrored state is a record; device JSON objects are records of
optional fields (a `none` field models an absent dictionary key, mirroring
Python's `dict.get`); exceptions raised by the device-communication
collaborator are modelled by passing `none`/an error constructor for the
collaborator's result.  Numeric JSON values are integers (`Int`) for the
discrete device codes and rationals (`ℚ`) for temperatures.
-/

namespace DaikinBR

/-- Home Assistant HVAC modes supported by the integration
(`DaikinClimate.hvac_modes`). -/
inductive HVACMode where
  | off
  | fan_only
  | cool
  | dry
  | heat
  | auto
deriving DecidableEq, Repr

/-- `homeassistant.components.climate.const.SWING_OFF`. -/
def SWING_OFF : String := "off"

/-- `homeassistant.components.climate.const.SWING_VERTICAL`. -/
def SWING_VERTICAL : String := "vertical"

/-- `homeassistant.components.climate.const.PRESET_NONE`. -/
def PRESET_NONE : String := "none"

/-- `homeassistant.components.climate.const.PRESET_ECO`. -/
def PRESET_ECO : String := "eco"

/-- `homeassistant.components.climate.const.PRESET_BOOST`. -/
def PRESET_BOOST : String := "boost"

/-- The `"sensors"` sub-object of the device's `"port1"` JSON object. -/
structure Sensors where
  room_temp : Option ℚ := none
deriving DecidableEq, Repr

/-- The `"port1"` JSON object of a device status or command response.
Each field is `none` when the key is absent. -/
structure PortStatus where
  power : Option Int := none
  mode : Option Int := none
  temperature : Option ℚ := none
  fan : Option Int := none
  v_swing : Option Int := none
  econo : Option Int := none
  powerchill : Option Int := none
  sensors : Option Sensors := none
deriving DecidableEq, Repr

/-- A top-level device JSON document (status fetch result or command
response).  `port1 = none` models a dictionary without a `"port1"` key, in
which case the code falls back to an empty dictionary (`.get("port1", {})`). -/
structure Status where
  port1 : Option PortStatus := none
deriving DecidableEq, Repr

/-- The entity's mirrored state: the instance attributes of `DaikinClimate`
that the climate claims are about. -/
structure EntityState where
  power_state : Option Int
  hvac_mode : HVACMode
  target_temperature : Option ℚ
  current_temperature : Option ℚ
  fan_mode : String
  swing_mode : String
  preset_mode : String
  available : Bool
  skip_update : Bool
deriving DecidableEq, Repr

/-- The mirrored state right after `DaikinClimate.__init__` (with a device
key present): power 0, mode off, no temperatures, fan `"auto"`, swing off,
preset none, available, no skip pending. -/
def initState : EntityState :=
  { power_state := some 0
    hvac_mode := HVACMode.off
    target_temperature := none
    current_temperature := none
    fan_mode := "auto"
    swing_mode := SWING_OFF
    preset_mode := PRESET_NONE
    available := true
    skip_update := false }

/-- Python truthiness of `self._power_state` (an optional integer):
`None` and `0` are falsy, any other integer is truthy. -/
def truthy (v : Option Int) : Bool :=
  match v with
  | none => false
  | some n => n != 0

/-- `DaikinClimate.map_hvac_mode`: device mode code to Home Assistant HVAC
mode, defaulting to `off` for unknown codes (`hvac_mapping.get(hvac_value,
HVACMode.OFF)`).  The argument is optional because the callers pass
`port_status.get("mode")`, which may be `None`. -/
def map_hvac_mode (hvac_value : Option Int) : HVACMode :=
  if hvac_value = some 0 then HVACMode.off
  else if hvac_value = some 6 then HVACMode.fan_only
  else if hvac_value = some 3 then HVACMode.cool
  else if hvac_value = some 2 then HVACMode.dry
  else if hvac_value = some 4 then HVACMode.heat
  else if hvac_value = some 1 then HVACMode.auto
  else HVACMode.off

/-- `DaikinClimate.map_fan_speed`: device fan code to Home Assistant fan
mode string, defaulting to `"auto"` for unknown codes. -/
def map_fan_speed (fan_value : Option Int) : String :=
  if fan_value = some 17 then "auto"
  else if fan_value = some 7 then "high"
  else if fan_value = some 6 then "medium_high"
  else if fan_value = some 5 then "medium"
  else if fan_value = some 4 then "low_medium"
  else if fan_value = some 3 then "low"
  else if fan_value = some 18 then "quiet"
  else "auto"

/-- The `hvac_mode_mapping` dictionary of
`DaikinClimate.async_set_hvac_mode`, restricted to the supported modes
(total on the `HVACMode` type, which has exactly the supported modes). -/
def hvac_mode_mapping : HVACMode → Int
  | HVACMode.off => 0
  | HVACMode.fan_only => 6
  | HVACMode.cool => 3
  | HVACMode.dry => 2
  | HVACMode.heat => 4
  | HVACMode.auto => 1

/-- The `fan_mode_mapping` dictionary of `DaikinClimate.async_set_fan_mode`
(`.get`: `none` for a key outside the table). -/
def fan_mode_mapping (fan_mode : String) : Option Int :=
  if fan_mode = "auto" then some 17
  else if fan_mode = "high" then some 7
  else if fan_mode = "medium_high" then some 6
  else if fan_mode = "medium" then some 5
  else if fan_mode = "low_medium" then some 4
  else if fan_mode = "low" then some 3
  else if fan_mode = "quiet" then some 18
  else none

/-- `DaikinClimate._fan_modes`. -/
def fan_modes_list : List String :=
  ["auto", "high", "medium_high", "medium", "low_medium", "low", "quiet"]

/-- `DaikinClimate._attr_swing_modes`. -/
def swing_modes_list : List String := [SWING_OFF, SWING_VERTICAL]

/-- `DaikinClimate.set_thing_state`:  `response = some r` is the value
returned by `send_operation_data`; `response = none` models
`send_operation_data` raising, in which case the handler only logs and the
state is unchanged.  On the non-exception path the method re-synchronizes
every mirrored field from the response's `"port1"` object and finally sets
the skip-update flag. -/
def set_thing_state (s : EntityState) (response : Option Status) : EntityState :=
  match response with
  | none => s
  | some r =>
    let port_status := r.port1.getD {}
    let s1 : EntityState :=
      { s with
        power_state := port_status.power
        hvac_mode :=
          if truthy port_status.power then map_hvac_mode port_status.mode
          else HVACMode.off
        target_temperature := port_status.temperature
        current_temperature := (port_status.sensors.getD {}).room_temp
        fan_mode := map_fan_speed port_status.fan
        swing_mode :=
          if port_status.v_swing.getD 0 = 1 then SWING_VERTICAL else SWING_OFF }
    let v_econo_value := port_status.econo.getD 0
    let v_powerchill_value := port_status.powerchill.getD 0
    let s2 := if v_econo_value = 1 then { s1 with preset_mode := PRESET_ECO } else s1
    let s3 :=
      if v_powerchill_value = 1 then { s2 with preset_mode := PRESET_BOOST } else s2
    let s4 :=
      if v_econo_value = 0 ∧ v_powerchill_value = 0 then
        { s3 with preset_mode := PRESET_NONE }
      else s3
    { s4 with skip_update := true }

/-- `DaikinClimate.update_entity_properties`: refresh every mirrored field
from a fetched status document, then set the skip-update flag
(unconditionally). -/
def update_entity_properties (s : EntityState) (status : Status) : EntityState :=
  let port_status := status.port1.getD {}
  let power := port_status.power.getD 0
  { s with
    current_temperature := (port_status.sensors.getD {}).room_temp
    target_temperature := port_status.temperature
    power_state := some power
    hvac_mode :=
      if power = 0 then HVACMode.off
      else map_hvac_mode (some (port_status.mode.getD 0))
    fan_mode := map_fan_speed port_status.fan
    swing_mode :=
      if port_status.v_swing.getD 0 = 1 then SWING_VERTICAL else SWING_OFF
    preset_mode :=
      if port_status.econo.getD 0 = 1 then PRESET_ECO
      else if port_status.powerchill.getD 0 = 1 then PRESET_BOOST
      else PRESET_NONE
    skip_update := true }

/-- Result of one `DaikinClimate.async_update` call: the new entity state
and whether the device was contacted (`get_thing_info` called). -/
structure UpdateResult where
  state : EntityState
  fetched : Bool
deriving DecidableEq, Repr

/-- `DaikinClimate.async_update`: when the skip-update flag is set, clear it
and return without contacting the device.  Otherwise fetch the status
(`fetch = some st` is a successful `get_thing_info`; `fetch = none` models
the fetch — or the immediately following property update — raising), mark
the entity available on success and unavailable on failure. -/
def async_update (s : EntityState) (fetch : Option Status) : UpdateResult :=
  if s.skip_update then
    { state := { s with skip_update := false }, fetched := false }
  else
    match fetch with
    | none => { state := { s with available := false }, fetched := true }
    | some status =>
        { state := { update_entity_properties s status with available := true }
          fetched := true }

/-- Iterated periodic polling (`async_track_time_interval` calling
`async_update` every `POLL_INTERVAL` seconds), with every fetch
succeeding and returning `sts n` at tick `n`. -/
def poll_iter (s : EntityState) (sts : Nat → Status) : Nat → EntityState
  | 0 => s
  | n + 1 => (async_update (poll_iter s sts n) (some (sts n))).state

/-- Payload of the preset command built by
`DaikinClimate.async_set_preset_mode`: `{"powerchill": _, "econo": _}`. -/
structure PresetCmd where
  powerchill : Int
  econo : Int
deriving DecidableEq, Repr

/-- `DaikinClimate.async_set_preset_mode` up to the point where the payload
is handed to `set_thing_state`: returns the payload sent to the device
(`none` when no command is sent) and the entity state at that point. -/
def async_set_preset_mode (s : EntityState) (preset_mode : String) :
    Option PresetCmd × EntityState :=
  if s.power_state = some 1 then
    if preset_mode = PRESET_ECO then
      (some { powerchill := 0, econo := 1 }, { s with preset_mode := PRESET_ECO })
    else if preset_mode = PRESET_BOOST then
      (some { powerchill := 1, econo := 0 }, { s with preset_mode := PRESET_BOOST })
    else if preset_mode = PRESET_NONE then
      (some { powerchill := 0, econo := 0 }, { s with preset_mode := PRESET_NONE })
    else (none, s)
  else (none, s)

/-- Payload of the swing command built by
`DaikinClimate.async_set_swing_mode`: `{"v_swing": _}`. -/
structure SwingCmd where
  v_swing : Int
deriving DecidableEq, Repr

/-- `DaikinClimate.async_set_swing_mode` up to the point where the payload
is handed to `set_thing_state`. -/
def async_set_swing_mode (s : EntityState) (swing_mode : String) :
    Option SwingCmd × EntityState :=
  if swing_mode ∈ swing_modes_list then
    (some { v_swing := if swing_mode = SWING_VERTICAL then 1 else 0 }, s)
  else (none, s)

/-- Payload of the temperature command built by
`DaikinClimate.async_set_temperature`: `{"temperature": _}`. -/
structure TempCmd where
  temperature : ℚ
deriving DecidableEq, Repr

/-- `DaikinClimate.async_set_temperature` up to the point where the payload
is handed to `set_thing_state`.  `temperature = none` models a call without
`ATTR_TEMPERATURE` in `kwargs`. -/
def async_set_temperature (s : EntityState) (temperature : Option ℚ) :
    Option TempCmd × EntityState :=
  match temperature with
  | none => (none, s)
  | some t =>
    if s.hvac_mode = HVACMode.cool then
      if t < 16 ∨ t > 32 then (none, { s with target_temperature := some t })
      else (some { temperature := t }, s)
    else if s.hvac_mode = HVACMode.fan_only ∨ s.hvac_mode = HVACMode.dry then
      (none, { s with target_temperature := some t })
    else (some { temperature := t }, s)

/-- A Python value returned by the coordinator's injected update method:
either a dictionary (a device status document) or something that is not a
dictionary. -/
inductive DeviceValue where
  | dict (d : Status)
  | nonDict
deriving DecidableEq, Repr

/-- Outcome of awaiting the coordinator's injected update method: a
returned value or a raised exception carrying a message. -/
inductive UpdateOutcome where
  | value (v : DeviceValue)
  | raised (msg : String)
deriving DecidableEq, Repr

/-- The `UpdateFailed` message built by
`DaikinDataUpdateCoordinator._async_update_data`:
`f"The device {device_apn} is unavailable: {e}"`. -/
def updateFailedMsg (device_apn msg : String) : String :=
  "The device " ++ device_apn ++ " is unavailable: " ++ msg

/-- `DaikinDataUpdateCoordinator._async_update_data`: return the fetched
dictionary unchanged; on a non-dict value raise `TypeError("Failed to
retrieve device data")`, which the enclosing handler — like any exception
from the update method — converts to `UpdateFailed` naming the device
(`Except.error`). -/
def async_update_data (device_apn : String) (outcome : UpdateOutcome) :
    Except String Status :=
  match outcome with
  | UpdateOutcome.value (DeviceValue.dict d) => Except.ok d
  | UpdateOutcome.value DeviceValue.nonDict =>
      Except.error (updateFailedMsg device_apn "Failed to retrieve device data")
  | UpdateOutcome.raised e => Except.error (updateFailedMsg device_apn e)

/- Helper lemmas shared by several claim theorems. -/

/-- The non-exception path of `set_thing_state` always ends by setting the
skip-update flag. -/
theorem set_thing_state_skip (s : EntityState) (r : Status) :
    (set_thing_state s (some r)).skip_update = true := by
  simp only [set_thing_state]

/-- Apart from the preset mode and the skip flag, `set_thing_state` on the
non-exception path is a plain field-by-field update from the response. -/
theorem set_thing_state_fields (s : EntityState) (r : Status) :
    (set_thing_state s (some r)).power_state = (r.port1.getD {}).power ∧
    (set_thing_state s (some r)).hvac_mode =
      (if truthy (r.port1.getD {}).power then map_hvac_mode (r.port1.getD {}).mode
       else HVACMode.off) ∧
    (set_thing_state s (some r)).target_temperature = (r.port1.getD {}).temperature ∧
    (set_thing_state s (some r)).current_temperature =
      ((r.port1.getD {}).sensors.getD {}).room_temp ∧
    (set_thing_state s (some r)).fan_mode = map_fan_speed (r.port1.getD {}).fan ∧
    (set_thing_state s (some r)).swing_mode =
      (if (r.port1.getD {}).v_swing.getD 0 = 1 then SWING_VERTICAL else SWING_OFF) := by
  simp only [set_thing_state]
  split <;> split <;> split <;> simp

/-- `update_entity_properties` always sets the skip-update flag. -/
theorem update_entity_properties_skip (s : EntityState) (st : Status) :
    (update_entity_properties s st).skip_update = true := rfl

/-- With the skip flag set, `async_update` only clears the flag and does not
contact the device. -/
theorem async_update_of_skip (s : EntityState) (f : Option Status)
    (h : s.skip_update = true) :
    async_update s f =
      { state := { s with skip_update := false }, fetched := false } := by
  simp [async_update, h]

/-- With the skip flag clear, `async_update` contacts the device. -/
theorem async_update_fetches (s : EntityState) (f : Option Status)
    (h : s.skip_update = false) : (async_update s f).fetched = true := by
  cases f <;> simp [async_update, h]

/-- CLAIM C1.  After a locally issued command succeeds (`set_thing_state`
processes a `send_operation_data` response), the skip-update flag is set;
the immediately following `async_update` does not contact the device, leaves
every mirrored field (power, hvac mode, fan, temperatures, swing, preset,
availability) unchanged, and clears the flag; and the poll after that does
contact the device. -/
theorem skip_poll_after_command (s : EntityState) (r : Status)
    (f f2 : Option Status) :
    (set_thing_state s (some r)).skip_update = true ∧
    (async_update (set_thing_state s (some r)) f).fetched = false ∧
    (async_update (set_thing_state s (some r)) f).state =
      { set_thing_state s (some r) with skip_update := false } ∧
    (async_update (async_update (set_thing_state s (some r)) f).state f2).fetched
      = true := by
  have hskip := set_thing_state_skip s r
  have h1 := async_update_of_skip (set_thing_state s (some r)) f hskip
  refine ⟨hskip, ?_, ?_, ?_⟩
  · rw [h1]
  · rw [h1]
  · rw [h1]
    exact async_update_fetches _ f2 rfl

/-- Parity of the skip flag along an all-successful polling run that starts
with the flag clear. -/
theorem poll_iter_skip_parity (s : EntityState) (sts : Nat → Status)
    (h : s.skip_update = false) (n : Nat) :
    (poll_iter s sts n).skip_update = decide (n % 2 = 1) := by
  induction n with
  | zero => simpa [poll_iter] using h
  | succ n ih =>
    rcases Nat.mod_two_eq_zero_or_one n with he | ho
    · have : (poll_iter s sts n).skip_update = false := by simp [ih, he]
      simp only [poll_iter, async_update, this]
      simp [update_entity_properties_skip, Nat.succ_mod_two_eq_one_iff, he]
    · have : (poll_iter s sts n).skip_update = true := by simp [ih, ho]
      simp only [poll_iter, async_update, this]
      simp [Nat.succ_mod_two_eq_one_iff, ho]

/-- CLAIM C2.  `update_entity_properties` sets the skip-update flag
unconditionally, so after any `async_update` that fetches device status
successfully the immediately following `async_update` is skipped; under
periodic polling with every fetch succeeding, starting with the flag clear,
the device is contacted exactly at the even ticks — only on every other
tick. -/
theorem unconditional_skip_after_sync (s : EntityState) (st : Status)
    (sts : Nat → Status) (h : s.skip_update = false) :
    (update_entity_properties s st).skip_update = true ∧
    (∀ f, (async_update (async_update s (some st)).state f).fetched = false) ∧
    (∀ n, (async_update (poll_iter s sts n) (some (sts n))).fetched
            = decide (n % 2 = 0)) := by
  refine ⟨update_entity_properties_skip s st, ?_, ?_⟩
  · intro f
    have hstate : (async_update s (some st)).state.skip_update = true := by
      simp [async_update, h, update_entity_properties_skip]
    rw [async_update_of_skip _ f hstate]
  · intro n
    rcases Nat.mod_two_eq_zero_or_one n with he | ho
    · have hn : (poll_iter s sts n).skip_update = false := by
        simp [poll_iter_skip_parity s sts h, he]
      simp [async_update_fetches _ _ hn, he]
    · have hn : (poll_iter s sts n).skip_update = true := by
        simp [poll_iter_skip_parity s sts h, ho]
      rw [async_update_of_skip _ _ hn]
      simp [ho]

/-- Witness for CLAIM C2 at a concrete state and status sequence. -/
theorem unconditional_skip_after_sync_witness :
    (update_entity_properties initState { port1 := some {} }).skip_update = true ∧
    (∀ f, (async_update
            (async_update initState (some { port1 := some {} })).state f).fetched
          = false) ∧
    (∀ n, (async_update (poll_iter initState (fun _ => { port1 := some {} }) n)
            (some { port1 := some {} })).fetched = decide (n % 2 = 0)) :=
  unconditional_skip_after_sync initState { port1 := some {} }
    (fun _ => { port1 := some {} }) rfl

/-- Preset resynchronization of `set_thing_state`: the sequential `if`
chain gives `powerchill == 1` precedence over `econo == 1`, and resets to
none when both are 0. -/
theorem set_thing_state_preset (s : EntityState) (r : Status) :
    ((r.port1.getD {}).econo.getD 0 = 1 → (r.port1.getD {}).powerchill.getD 0 ≠ 1 →
      (set_thing_state s (some r)).preset_mode = PRESET_ECO) ∧
    ((r.port1.getD {}).powerchill.getD 0 = 1 →
      (set_thing_state s (some r)).preset_mode = PRESET_BOOST) ∧
    ((r.port1.getD {}).econo.getD 0 = 0 → (r.port1.getD {}).powerchill.getD 0 = 0 →
      (set_thing_state s (some r)).preset_mode = PRESET_NONE) := by
  refine ⟨fun he hp => ?_, fun hp => ?_, fun he hp => ?_⟩
  · simp [set_thing_state, he, hp]
  · simp [set_thing_state, hp]
  · simp [set_thing_state, he, hp]

/-- CLAIM C3.  After sending a command, `set_thing_state` re-synchronizes
every mirrored field from the response's `"port1"` object: power from
`"power"`; hvac mode via `map_hvac_mode` of `"mode"` when power is truthy
and off otherwise; target temperature from `"temperature"`; current
temperature from `"sensors"."room_temp"`; fan via `map_fan_speed` of
`"fan"`; swing vertical iff `"v_swing"` equals 1; and preset eco when
`"econo"` is 1, boost when `"powerchill"` is 1 (taking precedence over
eco), none when both are 0. -/
theorem command_response_sync (s : EntityState) (r : Status) :
    (set_thing_state s (some r)).power_state = (r.port1.getD {}).power ∧
    (set_thing_state s (some r)).hvac_mode =
      (if truthy (r.port1.getD {}).power then map_hvac_mode (r.port1.getD {}).mode
       else HVACMode.off) ∧
    (set_thing_state s (some r)).target_temperature = (r.port1.getD {}).temperature ∧
    (set_thing_state s (some r)).current_temperature =
      ((r.port1.getD {}).sensors.getD {}).room_temp ∧
    (set_thing_state s (some r)).fan_mode = map_fan_speed (r.port1.getD {}).fan ∧
    ((set_thing_state s (some r)).swing_mode = SWING_VERTICAL ↔
      (r.port1.getD {}).v_swing.getD 0 = 1) ∧
    ((r.port1.getD {}).econo.getD 0 = 1 → (r.port1.getD {}).powerchill.getD 0 ≠ 1 →
      (set_thing_state s (some r)).preset_mode = PRESET_ECO) ∧
    ((r.port1.getD {}).powerchill.getD 0 = 1 →
      (set_thing_state s (some r)).preset_mode = PRESET_BOOST) ∧
    ((r.port1.getD {}).econo.getD 0 = 0 → (r.port1.getD {}).powerchill.getD 0 = 0 →
      (set_thing_state s (some r)).preset_mode = PRESET_NONE) := by
  obtain ⟨h1, h2, h3, h4, h5, h6⟩ := set_thing_state_fields s r
  obtain ⟨p1, p2, p3⟩ := set_thing_state_preset s r
  refine ⟨h1, h2, h3, h4, h5, ?_, p1, p2, p3⟩
  rw [h6]
  constructor
  · intro hv
    by_contra hne
    rw [if_neg hne] at hv
    exact absurd hv (by simp [SWING_OFF, SWING_VERTICAL])
  · intro hv
    rw [if_pos hv]

/-- Witness for CLAIM C3 at a concrete response (power on, cool, econo). -/
theorem command_response_sync_witness :
    (set_thing_state initState
      (some { port1 := some { power := some 1, mode := some 3, econo := some 1,
                              powerchill := some 0 } })).preset_mode = PRESET_ECO := by
  have h := command_response_sync initState
    { port1 := some { power := some 1, mode := some 3, econo := some 1,
                      powerchill := some 0 } }
  exact h.2.2.2.2.2.2.1 (by decide) (by decide)

/-- CLAIM C4.  The HVAC-mode and fan-speed tables are bidirectional
inverses on the supported values: `map_hvac_mode` inverts the
`async_set_hvac_mode` table on every supported HVAC mode, and
`map_fan_speed` inverts the `async_set_fan_mode` table on every supported
fan mode. -/
theorem mapping_tables_roundtrip :
    (∀ m : HVACMode, map_hvac_mode (some (hvac_mode_mapping m)) = m) ∧
    (∀ f ∈ fan_modes_list,
      ∃ v, fan_mode_mapping f = some v ∧ map_fan_speed (some v) = f) := by
  constructor
  · intro m
    cases m <;> rfl
  · intro f hf
    simp only [fan_modes_list, List.mem_cons, List.not_mem_nil, or_false] at hf
    rcases hf with rfl | rfl | rfl | rfl | rfl | rfl | rfl <;>
      exact ⟨_, rfl, rfl⟩

/-- Witness for CLAIM C4 at the fan mode `"high"`. -/
theorem mapping_tables_roundtrip_witness :
    ∃ v, fan_mode_mapping "high" = some v ∧ map_fan_speed (some v) = "high" :=
  mapping_tables_roundtrip.2 "high" (by decide)

/-- CLAIM C5.  When the skip flag is clear: if the status fetch or the
property update raises, the entity is marked unavailable and every mirrored
climate field is left unchanged; if they succeed, the entity is marked
available. -/
theorem update_failure_marks_unavailable (s : EntityState) (st : Status)
    (h : s.skip_update = false) :
    (async_update s none).state = { s with available := false } ∧
    (async_update s (some st)).state.available = true := by
  constructor
  · simp [async_update, h]
  · simp [async_update, h]

/-- Witness for CLAIM C5 at the initial state. -/
theorem update_failure_marks_unavailable_witness :
    (async_update initState none).state = { initState with available := false } ∧
    (async_update initState (some { port1 := some {} })).state.available = true :=
  update_failure_marks_unavailable initState { port1 := some {} } rfl

/-- CLAIM C6.  The coordinator's update hook returns the fetched data
unchanged when the injected update method returns a dictionary, and raises
`UpdateFailed` naming the device whenever the update method raises or
returns a non-dict value (the internally raised
`TypeError("Failed to retrieve device data")` is folded into the message). -/
theorem coordinator_update_data_spec (device_apn : String) (d : Status)
    (e : String) :
    async_update_data device_apn (UpdateOutcome.value (DeviceValue.dict d))
      = Except.ok d ∧
    async_update_data device_apn (UpdateOutcome.value DeviceValue.nonDict)
      = Except.error
          (updateFailedMsg device_apn "Failed to retrieve device data") ∧
    async_update_data device_apn (UpdateOutcome.raised e)
      = Except.error (updateFailedMsg device_apn e) :=
  ⟨rfl, rfl, rfl⟩

/-- CLAIM C7.  `async_set_preset_mode` sends a command only when the
mirrored power state equals 1, and the payloads keep economy and boost
mutually exclusive: eco sends `{"powerchill": 0, "econo": 1}`, boost sends
`{"powerchill": 1, "econo": 0}`, none sends `{"powerchill": 0, "econo": 0}`;
when the power state is not 1, or the preset is not one of eco/boost/none,
no command is sent and no mirrored state changes. -/
theorem preset_mode_command_spec (s : EntityState) (p : String) :
    ((async_set_preset_mode s p).1 ≠ none → s.power_state = some 1) ∧
    (s.power_state = some 1 →
      (p = PRESET_ECO →
        (async_set_preset_mode s p).1 = some { powerchill := 0, econo := 1 }) ∧
      (p = PRESET_BOOST →
        (async_set_preset_mode s p).1 = some { powerchill := 1, econo := 0 }) ∧
      (p = PRESET_NONE →
        (async_set_preset_mode s p).1 = some { powerchill := 0, econo := 0 })) ∧
    ((s.power_state ≠ some 1 ∨ p ∉ [PRESET_ECO, PRESET_BOOST, PRESET_NONE]) →
      (async_set_preset_mode s p).1 = none ∧ (async_set_preset_mode s p).2 = s) := by
  refine ⟨?_, ?_, ?_⟩
  · intro hcmd
    by_contra hpow
    simp [async_set_preset_mode, hpow] at hcmd
  · intro hpow
    refine ⟨fun hp => ?_, fun hp => ?_, fun hp => ?_⟩ <;>
      simp [async_set_preset_mode, hpow, hp, PRESET_ECO, PRESET_BOOST, PRESET_NONE]
  · intro hreject
    rcases hreject with hpow | hp
    · simp [async_set_preset_mode, hpow]
    · simp only [List.mem_cons, List.not_mem_nil, or_false, not_or] at hp
      obtain ⟨h1, h2, h3⟩ := hp
      simp [async_set_preset_mode, h1, h2, h3]

/-- Witness for CLAIM C7: with power on, requesting eco sends the
eco payload. -/
theorem preset_mode_command_spec_witness :
    (async_set_preset_mode { initState with power_state := some 1 }
        PRESET_ECO).1 = some { powerchill := 0, econo := 1 } :=
  ((preset_mode_command_spec { initState with power_state := some 1 }
      PRESET_ECO).2.1 rfl).1 rfl

/-- CLAIM C8.  The swing mode is always one of off/vertical: it starts at
off; `async_set_swing_mode` rejects any other requested value without
sending a command or changing state; and both `set_thing_state` and
`update_entity_properties` set it to vertical iff the reported `"v_swing"`
equals 1 (off otherwise, including when `"v_swing"` is absent), so every
update keeps it in the two-element set. -/
theorem swing_mode_invariant (s : EntityState) (r st : Status) (m : String)
    (hm : m ∉ swing_modes_list) :
    initState.swing_mode = SWING_OFF ∧
    async_set_swing_mode s m = (none, s) ∧
    ((set_thing_state s (some r)).swing_mode =
      if (r.port1.getD {}).v_swing.getD 0 = 1 then SWING_VERTICAL else SWING_OFF) ∧
    ((update_entity_properties s st).swing_mode =
      if (st.port1.getD {}).v_swing.getD 0 = 1 then SWING_VERTICAL else SWING_OFF) ∧
    (set_thing_state s (some r)).swing_mode ∈ swing_modes_list ∧
    (update_entity_properties s st).swing_mode ∈ swing_modes_list := by
  have hset := (set_thing_state_fields s r).2.2.2.2.2
  have hupd : (update_entity_properties s st).swing_mode =
      if (st.port1.getD {}).v_swing.getD 0 = 1 then SWING_VERTICAL else SWING_OFF :=
    rfl
  refine ⟨rfl, ?_, hset, hupd, ?_, ?_⟩
  · simp [async_set_swing_mode, hm]
  · rw [hset]
    split <;> simp [swing_modes_list]
  · rw [hupd]
    split <;> simp [swing_modes_list]

/-- Witness for CLAIM C8 at the swing request `"horizontal"`. -/
theorem swing_mode_invariant_witness :
    async_set_swing_mode initState "horizontal" = (none, initState) :=
  (swing_mode_invariant initState { port1 := none } { port1 := none }
      "horizontal" (by decide)).2.1

/-- CLAIM C9.  `map_hvac_mode` and `map_fan_speed` are total with defaults:
for `None` and for any device code outside the table keys, `map_hvac_mode`
returns off and `map_fan_speed` returns `"auto"`. -/
theorem mapper_defaults (n k : Int)
    (hn : n ∉ ([0, 6, 3, 2, 4, 1] : List Int))
    (hk : k ∉ ([17, 7, 6, 5, 4, 3, 18] : List Int)) :
    map_hvac_mode none = HVACMode.off ∧
    map_fan_speed none = "auto" ∧
    map_hvac_mode (some n) = HVACMode.off ∧
    map_fan_speed (some k) = "auto" := by
  simp only [List.mem_cons, List.not_mem_nil, or_false, not_or] at hn hk
  obtain ⟨h0, h6, h3, h2, h4, h1⟩ := hn
  obtain ⟨k17, k7, k6, k5, k4, k3, k18⟩ := hk
  refine ⟨rfl, rfl, ?_, ?_⟩
  · simp [map_hvac_mode, h0, h6, h3, h2, h4, h1]
  · simp [map_fan_speed, k17, k7, k6, k5, k4, k3, k18]

/-- Witness for CLAIM C9 at the out-of-table codes 99 and 99. -/
theorem mapper_defaults_witness :
    map_hvac_mode none = HVACMode.off ∧
    map_fan_speed none = "auto" ∧
    map_hvac_mode (some 99) = HVACMode.off ∧
    map_fan_speed (some 99) = "auto" :=
  mapper_defaults 99 99 (by decide) (by decide)

/-- CLAIM C10.  When `async_set_temperature` is called while the hvac mode
is fan-only or dry, or while it is cool with a requested temperature below
16 or above 32, no command is sent and every mirrored field except the
target temperature is unchanged — but the stored target temperature is
overwritten with the requested (rejected) value. -/
theorem reject_temperature_overwrites_target (s : EntityState) (t : ℚ)
    (h : s.hvac_mode = HVACMode.fan_only ∨ s.hvac_mode = HVACMode.dry ∨
         (s.hvac_mode = HVACMode.cool ∧ (t < 16 ∨ t > 32))) :
    async_set_temperature s (some t) =
      (none, { s with target_temperature := some t }) := by
  rcases h with hmode | hmode | ⟨hmode, hrange⟩
  · simp [async_set_temperature, hmode]
  · simp [async_set_temperature, hmode]
  · simp [async_set_temperature, hmode, hrange]

/-- Witness for CLAIM C10: in cool mode at 15 degrees the request is
rejected but stored. -/
theorem reject_temperature_overwrites_target_witness :
    async_set_temperature { initState with hvac_mode := HVACMode.cool } (some 15) =
      (none, { { initState with hvac_mode := HVACMode.cool } with
               target_temperature := some 15 }) :=
  reject_temperature_overwrites_target
    { initState with hvac_mode := HVACMode.cool } 15 (Or.inr (Or.inr ⟨rfl, by norm_num⟩))

end DaikinBR
